import Mathlib

set_option maxRecDepth 100000

/-!
Shallow embedding of the evidence chain-of-custody subsystem of the
`android-collector` repository (`collector/views.py`): the digest engine
(`calculate_hash`), the evidence ledger (`save_to_evidence_log`,
`save_to_json_log`), the chain-of-custody recorder (`create_evidence_chain`),
the integrity verifier (`verify_integrity`) and the report assembler
(`generate_forensic_report` and its helpers).

File contents are byte lists (`List Nat`, each entry `< 256`); the digest
engine is a full functional implementation of MD5, SHA-1 and SHA-256 over
such byte lists, producing lowercase hex strings exactly as
`hashlib.new(alg).hexdigest()` does.  Machine 32-bit arithmetic is `Nat`
arithmetic reduced mod `2^32`.  Python exceptions are explicit: functions
that can raise return `Except String _`; functions whose `try/except`
swallows every exception return plain values, as the source does.
-/

namespace Collector

/-! ### 32-bit arithmetic helpers -/

/-- Truncate to 32 bits (Python ints are unbounded; hash arithmetic in the
reference algorithms is mod `2^32`). -/
def w32 (n : Nat) : Nat := n % 4294967296

/-- Rotate a 32-bit word right by `k` (`0 < k < 32`). -/
def rotr32 (x k : Nat) : Nat := w32 ((x >>> k) ||| (x <<< (32 - k)))

/-- Rotate a 32-bit word left by `k` (`0 < k < 32`). -/
def rotl32 (x k : Nat) : Nat := w32 ((x <<< k) ||| (x >>> (32 - k)))

/-- Bitwise complement of a 32-bit word. -/
def not32 (x : Nat) : Nat := x ^^^ 4294967295

/-! ### Byte/word/hex conversions -/

/-- Big-endian 4-byte group to a 32-bit word, over a whole byte list. -/
def toWordsBE : List Nat → List Nat
  | b0 :: b1 :: b2 :: b3 :: rest =>
      ((b0 <<< 24) ||| (b1 <<< 16) ||| (b2 <<< 8) ||| b3) :: toWordsBE rest
  | _ => []

/-- Little-endian 4-byte group to a 32-bit word, over a whole byte list. -/
def toWordsLE : List Nat → List Nat
  | b0 :: b1 :: b2 :: b3 :: rest =>
      (b0 ||| (b1 <<< 8) ||| (b2 <<< 16) ||| (b3 <<< 24)) :: toWordsLE rest
  | _ => []

/-- 32-bit word to 4 bytes, big-endian. -/
def wordBytesBE (w : Nat) : List Nat :=
  [(w >>> 24) &&& 255, (w >>> 16) &&& 255, (w >>> 8) &&& 255, w &&& 255]

/-- 32-bit word to 4 bytes, little-endian. -/
def wordBytesLE (w : Nat) : List Nat :=
  [w &&& 255, (w >>> 8) &&& 255, (w >>> 16) &&& 255, (w >>> 24) &&& 255]

/-- 64-bit length field, big-endian (SHA family padding). -/
def len8BE (n : Nat) : List Nat :=
  [(n >>> 56) &&& 255, (n >>> 48) &&& 255, (n >>> 40) &&& 255, (n >>> 32) &&& 255,
   (n >>> 24) &&& 255, (n >>> 16) &&& 255, (n >>> 8) &&& 255, n &&& 255]

/-- 64-bit length field, little-endian (MD5 padding). -/
def len8LE (n : Nat) : List Nat :=
  [n &&& 255, (n >>> 8) &&& 255, (n >>> 16) &&& 255, (n >>> 24) &&& 255,
   (n >>> 32) &&& 255, (n >>> 40) &&& 255, (n >>> 48) &&& 255, (n >>> 56) &&& 255]

/-- Lowercase hex digit for a nibble. -/
def nibbleHex (n : Nat) : Char :=
  if n < 10 then Char.ofNat (48 + n) else Char.ofNat (87 + n)

/-- Lowercase hex characters of a byte list, two per byte. -/
def hexCharsOf : List Nat → List Char
  | [] => []
  | b :: rest => nibbleHex (b / 16) :: nibbleHex (b % 16) :: hexCharsOf rest

/-- `hexdigest()`-style lowercase hex string of a byte list. -/
def bytesToHex (bs : List Nat) : String := String.mk (hexCharsOf bs)

/-- The sixteen lowercase hex digit characters. -/
def isLowerHexDigit (c : Char) : Bool := "0123456789abcdef".toList.contains c

def isLowerHex (s : String) : Bool := s.toList.all isLowerHexDigit

/-- A genuine lowercase hex SHA-256 digest string: 64 lowercase hex
digits. -/
def isHexDigest64 (s : String) : Bool := s.length == 64 && isLowerHex s

/-- Merkle–Damgård padding: `0x80`, zeros to 56 mod 64, 8-byte bit length. -/
def padWith (lenField : Nat → List Nat) (msg : List Nat) : List Nat :=
  let len := msg.length
  msg ++ 128 :: List.replicate ((119 - len % 64) % 64) 0 ++ lenField (8 * len)

/-- Split a byte list into 64-byte blocks (fuel-based so it reduces in the
kernel; the fuel `l.length` always suffices). -/
def chunksAux : Nat → List Nat → List (List Nat)
  | _, [] => []
  | 0, _ => []
  | fuel + 1, l => l.take 64 :: chunksAux fuel (l.drop 64)

def chunksOf64 (l : List Nat) : List (List Nat) := chunksAux l.length l

/-! ### SHA-256 -/

/-- SHA-256 round constants (fractional parts of cube roots of the first 64
primes). -/
def sha256K : List Nat :=
  [1116352408, 1899447441, 3049323471, 3921009573, 961987163, 1508970993,
   2453635748, 2870763221, 3624381080, 310598401, 607225278, 1426881987,
   1925078388, 2162078206, 2614888103, 3248222580, 3835390401, 4022224774,
   264347078, 604807628, 770255983, 1249150122, 1555081692, 1996064986,
   2554220882, 2821834349, 2952996808, 3210313671, 3336571891, 3584528711,
   113926993, 338241895, 666307205, 773529912, 1294757372, 1396182291,
   1695183700, 1986661051, 2177026350, 2456956037, 2730485921, 2820302411,
   3259730800, 3345764771, 3516065817, 3600352804, 4094571909, 275423344,
   430227734, 506948616, 659060556, 883997877, 958139571, 1322822218,
   1537002063, 1747873779, 1955562222, 2024104815, 2227730452, 2361852424,
   2428436474, 2756734187, 3204031479, 3329325298]

structure Sha256St where
  a : Nat
  b : Nat
  c : Nat
  d : Nat
  e : Nat
  f : Nat
  g : Nat
  h : Nat
deriving DecidableEq, Repr

def sha256Init : Sha256St :=
  ⟨1779033703, 3144134277, 1013904242, 2773480762,
   1359893119, 2600822924, 528734635, 1541459225⟩

/-- Extend the 16 message words by one scheduled word. -/
def sha256ExtendStep (acc : List Nat) : List Nat :=
  let i := acc.length
  let x15 := acc.getD (i - 15) 0
  let x2 := acc.getD (i - 2) 0
  let s0 := (rotr32 x15 7) ^^^ (rotr32 x15 18) ^^^ (x15 >>> 3)
  let s1 := (rotr32 x2 17) ^^^ (rotr32 x2 19) ^^^ (x2 >>> 10)
  acc ++ [w32 (acc.getD (i - 16) 0 + s0 + acc.getD (i - 7) 0 + s1)]

/-- Full 64-word message schedule from the 16 block words. -/
def sha256Schedule (w16 : List Nat) : List Nat :=
  (List.range 48).foldl (fun acc _ => sha256ExtendStep acc) w16

def sha256Round (ws : List Nat) (st : Sha256St) (t : Nat) : Sha256St :=
  let s1 := (rotr32 st.e 6) ^^^ (rotr32 st.e 11) ^^^ (rotr32 st.e 25)
  let ch := (st.e &&& st.f) ^^^ ((not32 st.e) &&& st.g)
  let t1 := w32 (st.h + s1 + ch + sha256K.getD t 0 + ws.getD t 0)
  let s0 := (rotr32 st.a 2) ^^^ (rotr32 st.a 13) ^^^ (rotr32 st.a 22)
  let maj := (st.a &&& st.b) ^^^ (st.a &&& st.c) ^^^ (st.b &&& st.c)
  let t2 := w32 (s0 + maj)
  ⟨w32 (t1 + t2), st.a, st.b, st.c, w32 (st.d + t1), st.e, st.f, st.g⟩

def sha256Block (st : Sha256St) (block : List Nat) : Sha256St :=
  let ws := sha256Schedule (toWordsBE block)
  let r := (List.range 64).foldl (sha256Round ws) st
  ⟨w32 (st.a + r.a), w32 (st.b + r.b), w32 (st.c + r.c), w32 (st.d + r.d),
   w32 (st.e + r.e), w32 (st.f + r.f), w32 (st.g + r.g), w32 (st.h + r.h)⟩

def sha256Final (msg : List Nat) : Sha256St :=
  (chunksOf64 (padWith len8BE msg)).foldl sha256Block sha256Init

def sha256Output (st : Sha256St) : List Nat :=
  wordBytesBE st.a ++ wordBytesBE st.b ++ wordBytesBE st.c ++ wordBytesBE st.d ++
  wordBytesBE st.e ++ wordBytesBE st.f ++ wordBytesBE st.g ++ wordBytesBE st.h

/-- SHA-256 digest of a byte list, as 32 bytes. -/
def sha256Bytes (msg : List Nat) : List Nat := sha256Output (sha256Final msg)

/-- `hashlib.sha256(msg).hexdigest()`. -/
def sha256Hex (msg : List Nat) : String := bytesToHex (sha256Bytes msg)

/-! ### MD5 -/

/-- MD5 sine-derived round constants. -/
def md5K : List Nat :=
  [3614090360, 3905402710, 606105819, 3250441966, 4118548399, 1200080426,
   2821735955, 4249261313, 1770035416, 2336552879, 4294925233, 2304563134,
   1804603682, 4254626195, 2792965006, 1236535329, 4129170786, 3225465664,
   643717713, 3921069994, 3593408605, 38016083, 3634488961, 3889429448,
   568446438, 3275163606, 4107603335, 1163531501, 2850285829, 4243563512,
   1735328473, 2368359562, 4294588738, 2272392833, 1839030562, 4259657740,
   2763975236, 1272893353, 4139469664, 3200236656, 681279174, 3936430074,
   3572445317, 76029189, 3654602809, 3873151461, 530742520, 3299628645,
   4096336452, 1126891415, 2878612391, 4237533241, 1700485571, 2399980690,
   4293915773, 2240044497, 1873313359, 4264355552, 2734768916, 1309151649,
   4149444226, 3174756917, 718787259, 3951481745]

/-- MD5 per-round left-rotation amounts. -/
def md5S : List Nat :=
  [7, 12, 17, 22, 7, 12, 17, 22, 7, 12, 17, 22, 7, 12, 17, 22,
   5, 9, 14, 20, 5, 9, 14, 20, 5, 9, 14, 20, 5, 9, 14, 20,
   4, 11, 16, 23, 4, 11, 16, 23, 4, 11, 16, 23, 4, 11, 16, 23,
   6, 10, 15, 21, 6, 10, 15, 21, 6, 10, 15, 21, 6, 10, 15, 21]

structure Md5St where
  a : Nat
  b : Nat
  c : Nat
  d : Nat
deriving DecidableEq, Repr

def md5Init : Md5St := ⟨1732584193, 4023233417, 2562383102, 271733878⟩

def md5Round (m : List Nat) (st : Md5St) (i : Nat) : Md5St :=
  let fg : Nat × Nat :=
    if i < 16 then ((st.b &&& st.c) ||| ((not32 st.b) &&& st.d), i)
    else if i < 32 then ((st.d &&& st.b) ||| ((not32 st.d) &&& st.c), (5 * i + 1) % 16)
    else if i < 48 then (st.b ^^^ st.c ^^^ st.d, (3 * i + 5) % 16)
    else (st.c ^^^ (st.b ||| (not32 st.d)), (7 * i) % 16)
  let fv := w32 (fg.1 + st.a + md5K.getD i 0 + m.getD fg.2 0)
  ⟨st.d, w32 (st.b + rotl32 fv (md5S.getD i 0)), st.b, st.c⟩

def md5Block (st : Md5St) (block : List Nat) : Md5St :=
  let m := toWordsLE block
  let r := (List.range 64).foldl (md5Round m) st
  ⟨w32 (st.a + r.a), w32 (st.b + r.b), w32 (st.c + r.c), w32 (st.d + r.d)⟩

def md5Final (msg : List Nat) : Md5St :=
  (chunksOf64 (padWith len8LE msg)).foldl md5Block md5Init

def md5Output (st : Md5St) : List Nat :=
  wordBytesLE st.a ++ wordBytesLE st.b ++ wordBytesLE st.c ++ wordBytesLE st.d

def md5Bytes (msg : List Nat) : List Nat := md5Output (md5Final msg)

/-- `hashlib.md5(msg).hexdigest()`. -/
def md5Hex (msg : List Nat) : String := bytesToHex (md5Bytes msg)

/-! ### SHA-1 -/

structure Sha1St where
  a : Nat
  b : Nat
  c : Nat
  d : Nat
  e : Nat
deriving DecidableEq, Repr

def sha1Init : Sha1St := ⟨1732584193, 4023233417, 2562383102, 271733878, 3285377520⟩

/-- Extend the 16 block words by one scheduled word. -/
def sha1ExtendStep (acc : List Nat) : List Nat :=
  let i := acc.length
  acc ++ [rotl32 (acc.getD (i - 3) 0 ^^^ acc.getD (i - 8) 0 ^^^
                  acc.getD (i - 14) 0 ^^^ acc.getD (i - 16) 0) 1]

def sha1Schedule (w16 : List Nat) : List Nat :=
  (List.range 64).foldl (fun acc _ => sha1ExtendStep acc) w16

def sha1Round (ws : List Nat) (st : Sha1St) (i : Nat) : Sha1St :=
  let fk : Nat × Nat :=
    if i < 20 then ((st.b &&& st.c) ||| ((not32 st.b) &&& st.d), 1518500249)
    else if i < 40 then (st.b ^^^ st.c ^^^ st.d, 1859775393)
    else if i < 60 then ((st.b &&& st.c) ||| (st.b &&& st.d) ||| (st.c &&& st.d), 2400959708)
    else (st.b ^^^ st.c ^^^ st.d, 3395469782)
  let temp := w32 (rotl32 st.a 5 + fk.1 + st.e + fk.2 + ws.getD i 0)
  ⟨temp, st.a, rotl32 st.b 30, st.c, st.d⟩

def sha1Block (st : Sha1St) (block : List Nat) : Sha1St :=
  let ws := sha1Schedule (toWordsBE block)
  let r := (List.range 80).foldl (sha1Round ws) st
  ⟨w32 (st.a + r.a), w32 (st.b + r.b), w32 (st.c + r.c), w32 (st.d + r.d),
   w32 (st.e + r.e)⟩

def sha1Final (msg : List Nat) : Sha1St :=
  (chunksOf64 (padWith len8BE msg)).foldl sha1Block sha1Init

def sha1Output (st : Sha1St) : List Nat :=
  wordBytesBE st.a ++ wordBytesBE st.b ++ wordBytesBE st.c ++ wordBytesBE st.d ++
  wordBytesBE st.e

def sha1Bytes (msg : List Nat) : List Nat := sha1Output (sha1Final msg)

/-- `hashlib.sha1(msg).hexdigest()`. -/
def sha1Hex (msg : List Nat) : String := bytesToHex (sha1Bytes msg)

/-! ### File-system and path model

A file system maps a path to `none` (no such file) or to its byte contents
plus a readability flag (`open(path, 'rb')` can fail, e.g. for permission
reasons or a directory, even when `os.path.getsize` succeeds). -/

structure FileInfo where
  content : List Nat
  readable : Bool
deriving DecidableEq, Repr

abbrev FS := String → Option FileInfo

/-- `os.path.exists`. -/
def os_path_exists (fs : FS) (p : String) : Bool := (fs p).isSome

/-- `os.path.basename`: the part after the last slash. -/
def basename (p : String) : String :=
  String.mk (p.toList.foldl (fun acc c => if c == '/' then [] else acc ++ [c]) [])

/-- Python `str.replace`: replace every (non-overlapping, left-to-right)
occurrence of `pat` by `rep`; fuel-based so it reduces in the kernel. -/
def replaceAllAux (pat rep : List Char) : Nat → List Char → List Char
  | _, [] => []
  | 0, l => l
  | fuel + 1, c :: rest =>
      if !pat.isEmpty && pat.isPrefixOf (c :: rest) then
        rep ++ replaceAllAux pat rep fuel ((c :: rest).drop pat.length)
      else c :: replaceAllAux pat rep fuel rest

def replaceAll (s pat rep : String) : String :=
  String.mk (replaceAllAux pat.toList rep.toList s.toList.length s.toList)

/-! ### `format_file_size` (views.py line 51)

The source renders `size_bytes / 1024.0^k` with Python's `:.2f`; here the
two-decimal rendering is computed exactly on rationals with half-even
rounding, which agrees with the float rendering on the small sizes the
claims use. -/

def pad2 (n : Nat) : String := if n < 10 then "0" ++ toString n else toString n

/-- Two-decimal half-even rendering of `num / den`. -/
def fmt2 (num den : Nat) : String :=
  let q := num * 100 / den
  let r := num * 100 % den
  let c := if 2 * r > den then q + 1 else if 2 * r == den && q % 2 == 1 then q + 1 else q
  toString (c / 100) ++ "." ++ pad2 (c % 100)

def format_file_size (size_bytes : Nat) : String :=
  if size_bytes == 0 then "0 B"
  else if size_bytes < 1024 then fmt2 size_bytes 1 ++ " B"
  else if size_bytes < 1048576 then fmt2 size_bytes 1024 ++ " KB"
  else if size_bytes < 1073741824 then fmt2 size_bytes 1048576 ++ " MB"
  else if size_bytes < 1099511627776 then fmt2 size_bytes 1073741824 ++ " GB"
  else fmt2 size_bytes 1099511627776 ++ " TB"

/-! ### Evidence records and ledger state -/

/-- A full evidence entry as built by `create_evidence_chain` (views.py
lines 3380–3394) and appended to the ledger. -/
structure EvidenceEntry where
  timestamp : String
  filename : String
  full_path : String
  file_size : Nat
  file_size_readable : String
  md5 : String
  sha1 : String
  sha256 : String
  operation : String
  operator : String
  device_id : String
  integrity_check : String
  notes : String
deriving DecidableEq, Repr

/-- The degraded dictionary returned from the `except` branch of
`create_evidence_chain` (views.py lines 3402–3407). -/
structure DegradedEntry where
  timestamp : String
  filename : String
  error : String
  integrity_check : String
deriving DecidableEq, Repr

inductive RecordOutcome where
  | ok (e : EvidenceEntry)
  | degraded (d : DegradedEntry)
deriving DecidableEq, Repr

/-- State of `evidence_log.json`: absent, present but unparsable, or a
parsed `{"evidence_chain": [...]}` document. -/
inductive JsonDoc where
  | missing
  | corrupt
  | ok (entries : List EvidenceEntry)
deriving DecidableEq, Repr

/-- The two persisted ledger files plus write-capability flags (a `False`
flag models `open` for writing/appending raising `OSError`). -/
structure LedgerSt where
  csv : List EvidenceEntry
  json : JsonDoc
  csv_writable : Bool
  json_writable : Bool
deriving DecidableEq, Repr

/-! ### Digest engine: `calculate_hash` (views.py lines 3409–3420)

The `try` wraps the whole read loop with a bare `except` returning the
string `"ERROR"`; the function never raises for any of the algorithms its
callers pass. -/

inductive Alg where
  | md5
  | sha1
  | sha256
deriving DecidableEq, Repr

def hashHex : Alg → List Nat → String
  | .md5 => md5Hex
  | .sha1 => sha1Hex
  | .sha256 => sha256Hex

def calculate_hash (fs : FS) (file_path : String) (algorithm : Alg) : String :=
  match fs file_path with
  | some fi => if fi.readable then hashHex algorithm fi.content else "ERROR"
  | none => "ERROR"

/-! ### Evidence ledger: `save_to_json_log`, `save_to_evidence_log`
(views.py lines 3422–3465)

Each returns `(some errorMessage, state)` when the Python original would
raise out of the function, and `(none, state)` on success; the state is the
ledger as left behind in either case.  In `save_to_json_log`, a missing or
unparsable document is replaced by a fresh one holding only the new entry;
a failing write raises (the `except` fallback write fails the same way). -/

def save_to_json_log (evidence_entry : EvidenceEntry) (st : LedgerSt) :
    Option String × LedgerSt :=
  if st.json_writable then
    match st.json with
    | .ok l => (none, { st with json := .ok (l ++ [evidence_entry]) })
    | _ => (none, { st with json := .ok [evidence_entry] })
  else (some "could not write evidence_log.json", st)

def save_to_evidence_log (evidence_entry : EvidenceEntry) (st : LedgerSt) :
    Option String × LedgerSt :=
  if st.csv_writable then
    save_to_json_log evidence_entry { st with csv := st.csv ++ [evidence_entry] }
  else (some "could not write evidence_log.csv", st)

/-! ### Chain-of-custody recorder: `create_evidence_chain`
(views.py lines 3368–3407)

`nowIso` stands for `datetime.datetime.now().isoformat()` at call time.
`os.path.getsize`/`getmtime`/`getctime` raise exactly when the file is
absent, which the surrounding `try` turns into the degraded dictionary; a
ledger-write failure is caught the same way (note the degraded dictionary
is returned but never itself appended to the ledger). -/

def mkEvidenceEntry (fs : FS) (nowIso file_path operation_type : String)
    (fi : FileInfo) : EvidenceEntry :=
  { timestamp := nowIso
    filename := basename file_path
    full_path := file_path
    file_size := fi.content.length
    file_size_readable := format_file_size fi.content.length
    md5 := calculate_hash fs file_path .md5
    sha1 := calculate_hash fs file_path .sha1
    sha256 := calculate_hash fs file_path .sha256
    operation := operation_type
    operator := "Android Collector"
    device_id := "N/A"
    integrity_check := "PASS"
    notes := operation_type ++ " via ADB backup" }

def create_evidence_chain (fs : FS) (nowIso : String) (file_path : String)
    (operation_type : String) (st : LedgerSt) : RecordOutcome × LedgerSt :=
  match fs file_path with
  | none =>
      (.degraded ⟨nowIso, basename file_path,
        "No such file or directory: " ++ file_path, "FAIL"⟩, st)
  | some fi =>
      let evidence_entry := mkEvidenceEntry fs nowIso file_path operation_type fi
      match save_to_evidence_log evidence_entry st with
      | (none, st') => (.ok evidence_entry, st')
      | (some err, st') => (.degraded ⟨nowIso, basename file_path, err, "FAIL"⟩, st')

/-! ### Integrity verifier: `verify_integrity` (views.py lines 3467–3512)

Error dictionaries carry only `status` and `message` (no hash keys), so the
hash and match fields are `Option`s.  The scan uses `break` on the first
matching filename.  `json.load` on an unparsable document raises out of the
function (`Except.error`); there is no surrounding `try`. -/

structure VerifyResult where
  status : String
  message : String
  original_hash : Option String
  current_hash : Option String
  «match» : Option Bool
deriving DecidableEq, Repr

deriving instance DecidableEq for Except

def verify_integrity (fs : FS) (st : LedgerSt) (file_path : String) :
    Except String VerifyResult :=
  if !os_path_exists fs file_path then
    .ok ⟨"error", "Fichier introuvable", none, none, none⟩
  else
    match st.json with
    | .missing => .ok ⟨"error", "Aucune preuve enregistrée", none, none, none⟩
    | .corrupt => .error "json.decoder.JSONDecodeError"
    | .ok entries =>
      match entries.find? (fun e => e.filename == basename file_path) with
      | none => .ok ⟨"error", "Preuve originale introuvable", none, none, none⟩
      | some original_entry =>
        let current_hash := calculate_hash fs file_path .sha256
        let original_hash := original_entry.sha256
        if current_hash == original_hash then
          .ok ⟨"success", "Intégrité vérifiée ✓",
               some original_hash, some current_hash, some true⟩
        else
          .ok ⟨"warning", "ALTÉRATION DÉTECTÉE ⚠️",
               some original_hash, some current_hash, some false⟩

/-- The full ledger read used by the web views (`view_evidence_chain`,
views.py 3789–3812): the `evidence_chain` list of `evidence_log.json`,
`[]` when the document is absent, a raise (`none`) when it is unparsable. -/
def readAll (st : LedgerSt) : Option (List EvidenceEntry) :=
  match st.json with
  | .missing => some []
  | .corrupt => none
  | .ok l => some l

/-- The entry list a `save_to_json_log` append starts from: the parsed list
when the document is readable, `[]` when it is absent or unparsable (the
local recovery of views.py 3462–3465). -/
def JsonDoc.entriesD : JsonDoc → List EvidenceEntry
  | .ok l => l
  | _ => []

/-- One `record` call: the file system, clock reading and arguments of one
invocation of `create_evidence_chain`. -/
structure RecInput where
  fs : FS
  now : String
  path : String
  op : String

/-- The entry a successful `record` call on input `i` appends. -/
def entryOf (i : RecInput) : EvidenceEntry :=
  mkEvidenceEntry i.fs i.now i.path i.op ((i.fs i.path).getD ⟨[], false⟩)

/-- Run a sequence of `record` calls against the ledger. -/
def recordMany (inputs : List RecInput) (st : LedgerSt) : LedgerSt :=
  match inputs with
  | [] => st
  | i :: rest => recordMany rest (create_evidence_chain i.fs i.now i.path i.op st).2

/-! ### Concrete scenario inputs used by witnesses and counterexamples -/

/-- Fresh system: no ledger files yet, disk writable. -/
def st0 : LedgerSt := ⟨[], .missing, true, true⟩

def smsPath : String := "collector/static/collected_data/sms/sms.db"

/-- File system at the first `record` call: `sms.db` holds byte `1`. -/
def fsV1 : FS := fun p => if p = smsPath then some ⟨[1], true⟩ else none

/-- File system after the file was re-extracted with different contents. -/
def fsV2 : FS := fun p => if p = smsPath then some ⟨[2], true⟩ else none

def stAfter1 : LedgerSt :=
  (create_evidence_chain fsV1 "2024-05-01T10:00:00" smsPath "sms_extraction" st0).2

def stAfter2 : LedgerSt :=
  (create_evidence_chain fsV2 "2024-05-01T11:00:00" smsPath "sms_extraction" stAfter1).2

def dbPath : String := "collector/static/collected_data/whatsapp/msgstore.db"

/-- An existing file whose `stat` succeeds but whose `open('rb')` fails
(e.g. permissions): content present, `readable = false`. -/
def fsLocked : FS := fun p => if p = dbPath then some ⟨[1, 2, 3], false⟩ else none

def stLocked : LedgerSt :=
  (create_evidence_chain fsLocked "2024-05-02T09:00:00" dbPath "whatsapp_backup" st0).2

/-- Empty file system: every path is absent. -/
def fsNone : FS := fun _ => none

/-- A ledger whose JSON document exists but is unparsable. -/
def stCorrupt : LedgerSt := ⟨[], .corrupt, true, true⟩

/-- A ledger whose JSON document parses to an empty evidence chain. -/
def stEmptyChain : LedgerSt := ⟨[], .ok [], true, true⟩

/-- The two `record` invocations of the double-extraction scenario. -/
def recV1 : RecInput := ⟨fsV1, "2024-05-01T10:00:00", smsPath, "sms_extraction"⟩

def recV2 : RecInput := ⟨fsV2, "2024-05-01T11:00:00", smsPath, "sms_extraction"⟩

/-! ### Report assembler (views.py lines 3519–3665)

`datetime.datetime.now()` at generation time is abstracted as a `Timestamp`
carrying the three renderings the source takes of it: `isoformat()`,
`strftime('%Y%m%d-%H%M%S')` and `strftime('%Y-%m-d %H:%M:%S')` (the last
with the source's literal `d`). -/

structure Timestamp where
  iso : String
  compact : String
  acq : String
deriving DecidableEq, Repr

structure DeviceInfo where
  device_model : Option String
  android_version : Option String
  manufacturer : Option String
  serial : Option String
  imei : Option String
  storage : Option String
deriving DecidableEq, Repr

/-- The `extraction_data` dictionary, restricted to the keys the report
generator reads; `none` models an absent key. -/
structure ExtractionData where
  device_info : Option DeviceInfo
  total_files : Option Nat
  hashes_calculated : Option Bool
  integrity_ok : Option Bool
  has_contacts : Option Bool
  has_calls : Option Bool
  has_sms : Option Bool
  has_whatsapp : Option Bool
  has_google_maps : Option Bool
  has_images : Option Bool
  has_location : Option Bool
  significant_findings : Option String
  main_findings : Option String
  first_activity : Option String
  last_activity : Option String
  key_events : Option (List String)
deriving DecidableEq, Repr

/-- The `scenario_data` dictionary (case metadata), keys optional. -/
structure ScenarioData where
  case_number : Option String
  case_name : Option String
  incident_date : Option String
  location : Option String
  description : Option String
deriving DecidableEq, Repr

structure CaseDetails where
  case_name : String
  incident_date : String
  location : String
  description : String
deriving DecidableEq, Repr

structure DeviceInformation where
  device_model : String
  android_version : String
  manufacturer : String
  serial_number : String
  imei : String
  storage_capacity : String
deriving DecidableEq, Repr

structure AcquisitionDetails where
  method : String
  tool : String
  date_time : String
  operator : String
  hash_verification : String
deriving DecidableEq, Repr

structure ArtefactsCount where
  contacts : Nat
  calls : Nat
  sms : Nat
  whatsapp : Nat
  images : Nat
  videos : Nat
  audio : Nat
  documents : Nat
  browsing_history : Nat
  location_data : Nat
  google_maps : Nat
  wifi_networks : Nat
  installed_apps : Nat
deriving DecidableEq, Repr

structure EvidenceChainStats where
  total_files : Nat
  hashes_calculated : Bool
  integrity_verified : Bool
deriving DecidableEq, Repr

structure FindingsSummary where
  contacts_found : String
  call_logs_found : String
  sms_messages_found : String
  whatsapp_data_found : String
  google_maps_data_found : String
  images_found : String
  location_data_found : String
  significant_findings : String
deriving DecidableEq, Repr

structure TimelineAnalysis where
  first_activity : String
  last_activity : String
  key_events : List String
  activity_period : String
deriving DecidableEq, Repr

structure Conclusions where
  main_findings : String
  recommendations : List String
deriving DecidableEq, Repr

structure ForensicReport where
  report_id : String
  generation_date : String
  report_type : String
  case_reference : String
  investigator : String
  version : String
  case_details : CaseDetails
  device_information : DeviceInformation
  acquisition_details : AcquisitionDetails
  artefacts_extracted : ArtefactsCount
  evidence_chain : EvidenceChainStats
  findings_summary : FindingsSummary
  timeline_analysis : TimelineAnalysis
  conclusions : Conclusions
  disclaimer : String
deriving DecidableEq, Repr

/-- `count_artefacts` (views.py 3593–3613) returns the default zero counts
whatever its input. -/
def count_artefacts (_extraction_data : ExtractionData) : ArtefactsCount :=
  ⟨0, 0, 0, 0, 0, 0, 0, 0, 0, 0, 0, 0, 0⟩

/-- `generate_findings_summary` (views.py 3615–3628). -/
def generate_findings_summary (extraction_data : ExtractionData) : FindingsSummary :=
  { contacts_found := if extraction_data.has_contacts.getD false then "Oui" else "Non"
    call_logs_found := if extraction_data.has_calls.getD false then "Oui" else "Non"
    sms_messages_found := if extraction_data.has_sms.getD false then "Oui" else "Non"
    whatsapp_data_found := if extraction_data.has_whatsapp.getD false then "Oui" else "Non"
    google_maps_data_found := if extraction_data.has_google_maps.getD false then "Oui" else "Non"
    images_found := if extraction_data.has_images.getD false then "Oui" else "Non"
    location_data_found := if extraction_data.has_location.getD false then "Oui" else "Non"
    significant_findings :=
      extraction_data.significant_findings.getD "Aucune donnée significative" }

/-- `extract_timeline_data` (views.py 3630–3639); the `last_activity`
default is `datetime.datetime.now().isoformat()`, passed in as `nowIso`. -/
def extract_timeline_data (extraction_data : ExtractionData) (nowIso : String) :
    TimelineAnalysis :=
  { first_activity := extraction_data.first_activity.getD "N/A"
    last_activity := extraction_data.last_activity.getD nowIso
    key_events := extraction_data.key_events.getD []
    activity_period := "À déterminer" }

/-- `generate_html_report` (views.py 3667–3775), condensed to the report
fields the f-string template interpolates, in template order; the static
CSS/markup text is elided since no consumer inspects it. -/
def generate_html_report (report : ForensicReport) : String :=
  "Rapport Forensique - " ++ report.report_id ++ "\n" ++
  report.generation_date ++ "\n" ++
  report.case_details.case_name ++ "\n" ++
  report.case_reference ++ "\n" ++
  report.case_details.incident_date ++ "\n" ++
  report.case_details.location ++ "\n" ++
  report.case_details.description ++ "\n" ++
  report.device_information.device_model ++ "\n" ++
  report.device_information.manufacturer ++ "\n" ++
  report.device_information.android_version ++ "\n" ++
  report.device_information.serial_number ++ "\n" ++
  report.acquisition_details.method ++ "\n" ++
  report.acquisition_details.tool ++ "\n" ++
  report.acquisition_details.date_time ++ "\n" ++
  String.intercalate "\n" report.conclusions.recommendations ++ "\n" ++
  report.disclaimer

/-- Persisted report documents: path to structured document for the JSON
form, path to rendered text for the HTML form; `writable = false` models
`open(..., 'w')` raising. -/
structure ReportStore where
  jsonDocs : String → Option ForensicReport
  htmlDocs : String → Option String
  writable : Bool

def reports_dir : String := "collector/static/collected_data/forensic_reports"

structure SavedPaths where
  json : String
  html : String
  pdf : Option String
deriving DecidableEq, Repr

/-- `save_report_files` (views.py 3641–3665).  The PDF branch only builds a
path (generation is commented out in the source), so the existence check on
it yields `none`. -/
def save_report_files (report : ForensicReport) (report_id : String)
    (store : ReportStore) : Option String × ReportStore × SavedPaths :=
  let json_file := reports_dir ++ "/" ++ report_id ++ ".json"
  let html_file := reports_dir ++ "/" ++ report_id ++ ".html"
  if store.writable then
    let store' : ReportStore :=
      { store with
        jsonDocs := fun p => if p = json_file then some report else store.jsonDocs p
        htmlDocs := fun p =>
          if p = html_file then some (generate_html_report report) else store.htmlDocs p }
    (none, store',
     ⟨replaceAll json_file "collector/static/" "",
      replaceAll html_file "collector/static/" "", none⟩)
  else (some "could not write report files", store, ⟨json_file, html_file, none⟩)

/-- `generate_forensic_report` (views.py 3519–3591).  A persistence failure
in `save_report_files` raises out of the function (no `try` around it),
hence the `Except`. -/
def generate_forensic_report (extraction_data : ExtractionData)
    (scenario_data : Option ScenarioData) (ts : Timestamp)
    (store : ReportStore) : Except String (ForensicReport × ReportStore) :=
  let report_id := "FR-" ++ ts.compact
  let device_info := (extraction_data.device_info).getD ⟨none, none, none, none, none, none⟩
  let report : ForensicReport :=
    { report_id := report_id
      generation_date := ts.iso
      report_type := "Rapport d'Investigation Numérique"
      case_reference :=
        match scenario_data with
        | some sd => sd.case_number.getD "CS-2024-001"
        | none => "CS-NON-RENSEIGNE"
      investigator := "Android Collector Forensic Tool"
      version := "1.0"
      case_details :=
        { case_name :=
            match scenario_data with
            | some sd => sd.case_name.getD "Investigation Android"
            | none => "Investigation Standard"
          incident_date :=
            match scenario_data with
            | some sd => sd.incident_date.getD "N/A"
            | none => "N/A"
          location :=
            match scenario_data with
            | some sd => sd.location.getD "N/A"
            | none => "N/A"
          description :=
            match scenario_data with
            | some sd => sd.description.getD "Analyse forensique d'un appareil Android"
            | none => "Analyse forensique standard" }
      device_information :=
        { device_model := device_info.device_model.getD "Inconnu"
          android_version := device_info.android_version.getD "Inconnu"
          manufacturer := device_info.manufacturer.getD "Inconnu"
          serial_number := device_info.serial.getD "N/A"
          imei := device_info.imei.getD "N/A"
          storage_capacity := device_info.storage.getD "N/A" }
      acquisition_details :=
        { method := "Logical Acquisition via ADB"
          tool := "Android Collector Platform"
          date_time := ts.acq
          operator := "System Operator"
          hash_verification := "SHA256 implemented" }
      artefacts_extracted := count_artefacts extraction_data
      evidence_chain :=
        { total_files := extraction_data.total_files.getD 0
          hashes_calculated := extraction_data.hashes_calculated.getD true
          integrity_verified := extraction_data.integrity_ok.getD true }
      findings_summary := generate_findings_summary extraction_data
      timeline_analysis := extract_timeline_data extraction_data ts.iso
      conclusions :=
        { main_findings :=
            extraction_data.main_findings.getD "Aucune donnée compromettante détectée"
          recommendations :=
            ["Conserver les fichiers de hash pour vérification future",
             "Archiver les preuves dans un support sécurisé",
             "Documenter toute manipulation ultérieure"] }
      disclaimer := "Ce rapport a été généré automatiquement. Pour une analyse complète, consulter un expert en forensic numérique." }
  match save_report_files report report_id store with
  | (none, store', _) => .ok (report, store')
  | (some err, _, _) => .error err

/-! ### Concrete report-generation inputs -/

def emptyReportStore : ReportStore := ⟨fun _ => none, fun _ => none, true⟩

def tsX : Timestamp :=
  ⟨"2024-06-01T12:00:00", "20240601-120000", "2024-06-d 12:00:00"⟩

/-- `extraction_data` with every optional key absent. -/
def edEmpty : ExtractionData :=
  ⟨none, none, none, none, none, none, none, none,
   none, none, none, none, none, none, none, none⟩

/-- Case metadata supplying only `case_name = "Affaire X"`. -/
def sdAffaireX : Option ScenarioData := some ⟨none, some "Affaire X", none, none, none⟩

/-! ## Helper lemmas: digest strings are genuine lowercase hex -/

theorem isLowerHexDigit_nibbleHex (n : Nat) (h : n < 16) :
    isLowerHexDigit (nibbleHex n) = true := by
  interval_cases n <;> decide

theorem hexCharsOf_length (bs : List Nat) :
    (hexCharsOf bs).length = 2 * bs.length := by
  induction bs with
  | nil => rfl
  | cons b rest ih =>
    simp only [hexCharsOf, List.length_cons, ih, List.length]
    omega

theorem hexCharsOf_lower (bs : List Nat) (h : ∀ b ∈ bs, b < 256) :
    (hexCharsOf bs).all isLowerHexDigit = true := by
  induction bs with
  | nil => rfl
  | cons b rest ih =>
    have hb : b < 256 := h b (List.mem_cons_self b rest)
    have h1 : b / 16 < 16 := by omega
    have h2 : b % 16 < 16 := by omega
    simp only [hexCharsOf, List.all_cons, Bool.and_eq_true]
    exact ⟨isLowerHexDigit_nibbleHex _ h1,
           isLowerHexDigit_nibbleHex _ h2,
           ih fun x hx => h x (List.mem_cons_of_mem b hx)⟩

theorem bytesToHex_length (bs : List Nat) :
    (bytesToHex bs).length = 2 * bs.length :=
  hexCharsOf_length bs

theorem isLowerHex_bytesToHex (bs : List Nat) (h : ∀ b ∈ bs, b < 256) :
    isLowerHex (bytesToHex bs) = true :=
  hexCharsOf_lower bs h

theorem mem_wordBytesBE {w b : Nat} (h : b ∈ wordBytesBE w) : b < 256 := by
  simp only [wordBytesBE, List.mem_cons, List.not_mem_nil, or_false] at h
  rcases h with h | h | h | h <;> subst h <;>
    exact Nat.lt_succ_of_le Nat.and_le_right

theorem mem_wordBytesLE {w b : Nat} (h : b ∈ wordBytesLE w) : b < 256 := by
  simp only [wordBytesLE, List.mem_cons, List.not_mem_nil, or_false] at h
  rcases h with h | h | h | h <;> subst h <;>
    exact Nat.lt_succ_of_le Nat.and_le_right

theorem sha256Output_length (st : Sha256St) : (sha256Output st).length = 32 := by
  simp [sha256Output, wordBytesBE]

theorem mem_sha256Output {st : Sha256St} {b : Nat} (h : b ∈ sha256Output st) :
    b < 256 := by
  simp only [sha256Output, List.mem_append, or_assoc] at h
  rcases h with h | h | h | h | h | h | h | h <;> exact mem_wordBytesBE h

theorem md5Output_length (st : Md5St) : (md5Output st).length = 16 := by
  simp [md5Output, wordBytesLE]

theorem mem_md5Output {st : Md5St} {b : Nat} (h : b ∈ md5Output st) : b < 256 := by
  simp only [md5Output, List.mem_append, or_assoc] at h
  rcases h with h | h | h | h <;> exact mem_wordBytesLE h

theorem sha1Output_length (st : Sha1St) : (sha1Output st).length = 20 := by
  simp [sha1Output, wordBytesBE]

theorem mem_sha1Output {st : Sha1St} {b : Nat} (h : b ∈ sha1Output st) : b < 256 := by
  simp only [sha1Output, List.mem_append, or_assoc] at h
  rcases h with h | h | h | h | h <;> exact mem_wordBytesBE h

theorem sha256Hex_length (msg : List Nat) : (sha256Hex msg).length = 64 := by
  show (bytesToHex (sha256Output (sha256Final msg))).length = 64
  rw [bytesToHex_length, sha256Output_length]

theorem md5Hex_length (msg : List Nat) : (md5Hex msg).length = 32 := by
  show (bytesToHex (md5Output (md5Final msg))).length = 32
  rw [bytesToHex_length, md5Output_length]

theorem sha1Hex_length (msg : List Nat) : (sha1Hex msg).length = 40 := by
  show (bytesToHex (sha1Output (sha1Final msg))).length = 40
  rw [bytesToHex_length, sha1Output_length]

theorem isLowerHex_hashHex (alg : Alg) (msg : List Nat) :
    isLowerHex (hashHex alg msg) = true := by
  cases alg
  case md5 =>
    exact isLowerHex_bytesToHex _ fun b hb => mem_md5Output hb
  case sha1 =>
    exact isLowerHex_bytesToHex _ fun b hb => mem_sha1Output hb
  case sha256 =>
    exact isLowerHex_bytesToHex _ fun b hb => mem_sha256Output hb

theorem isHexDigest64_sha256Hex (msg : List Nat) :
    isHexDigest64 (sha256Hex msg) = true := by
  have h1 := sha256Hex_length msg
  have h2 := isLowerHex_hashHex Alg.sha256 msg
  simp [isHexDigest64, h1, h2]
  exact h2

theorem hashHex_ne_ERROR (alg : Alg) (msg : List Nat) : hashHex alg msg ≠ "ERROR" := by
  intro h
  have hlen := congrArg String.length h
  cases alg
  case md5 => rw [show hashHex Alg.md5 msg = md5Hex msg from rfl, md5Hex_length] at hlen; exact absurd hlen.symm (by decide)
  case sha1 => rw [show hashHex Alg.sha1 msg = sha1Hex msg from rfl, sha1Hex_length] at hlen; exact absurd hlen.symm (by decide)
  case sha256 => rw [show hashHex Alg.sha256 msg = sha256Hex msg from rfl, sha256Hex_length] at hlen; exact absurd hlen.symm (by decide)

/-- Validation of the SHA-256 embedding against the published test vector
for the 12-byte message `"hello world\n"` (the digest the spec's concrete
scenario quotes). -/
theorem sha256Hex_known_vector :
    sha256Hex [104, 101, 108, 108, 111, 32, 119, 111, 114, 108, 100, 10] =
      "a948904f2f0f479b8f8197694b30184b0d2ed1c1cd2a1ec0fb85d299a192a447" := by
  decide

/-- Validation of the MD5 embedding against the published `"abc"` vector. -/
theorem md5Hex_known_vector :
    md5Hex [97, 98, 99] = "900150983cd24fb0d6963f7d28e17f72" := by
  decide

/-- Validation of the SHA-1 embedding against the published `"abc"`
vector. -/
theorem sha1Hex_known_vector :
    sha1Hex [97, 98, 99] = "a9993e364706816aba3e25717850c26c9cd0d89d" := by
  decide

/-! ## C5: the digest engine's contract -/

/-- C5 counterexample: the claim says `calculate_hash` fails with `IOError`
when the file cannot be opened; on an existing but unreadable file it
instead returns normally with the sentinel string `"ERROR"`, which is not a
hex digest of anything. -/
theorem C5_counterexample :
    calculate_hash fsLocked dbPath Alg.sha256 = "ERROR" ∧
    isHexDigest64 "ERROR" = false := by
  constructor <;> decide

/-- C5 (amended): `calculate_hash` never raises: it returns the sentinel
string `"ERROR"` when the file is absent or cannot be opened, and otherwise
the lowercase hex digest of the full file contents; it has no side effects
(it is a pure function of the file system). -/
theorem calculate_hash_spec (fs : FS) (p : String) (alg : Alg) :
    (fs p = none → calculate_hash fs p alg = "ERROR") ∧
    (∀ fi, fs p = some fi → fi.readable = false →
      calculate_hash fs p alg = "ERROR") ∧
    (∀ fi, fs p = some fi → fi.readable = true →
      calculate_hash fs p alg = hashHex alg fi.content ∧
      isLowerHex (calculate_hash fs p alg) = true ∧
      calculate_hash fs p alg ≠ "ERROR") := by
  refine ⟨fun h => by simp [calculate_hash, h],
          fun fi hfi hr => by simp [calculate_hash, hfi, hr],
          fun fi hfi hr => ?_⟩
  have hc : calculate_hash fs p alg = hashHex alg fi.content := by
    simp [calculate_hash, hfi, hr]
  exact ⟨hc, hc ▸ isLowerHex_hashHex alg fi.content,
         hc ▸ hashHex_ne_ERROR alg fi.content⟩

theorem calculate_hash_spec_witness :
    calculate_hash fsLocked dbPath Alg.sha256 = "ERROR" ∧
    calculate_hash fsV1 smsPath Alg.sha256 = sha256Hex [1] := by
  constructor
  · exact (calculate_hash_spec fsLocked dbPath Alg.sha256).2.1
      ⟨[1, 2, 3], false⟩ (by decide) rfl
  · exact ((calculate_hash_spec fsV1 smsPath Alg.sha256).2.2
      ⟨[1], true⟩ (by decide) rfl).1

/-! ## C1: which ledger record the verifier compares against -/

/-- C1 counterexample: `record` is called twice for `sms.db` (contents `[1]`
then `[2]`); both entries are in the ledger in call order, yet `verify`
compares against the digest from the **first** call (the scan `break`s on
the first filename match), so the unmodified second file is reported
`TAMPERED`, not `VERIFIED` as the claim's "last match wins" would give. -/
theorem C1_counterexample :
    (readAll stAfter2).map (List.map (fun e => e.sha256)) =
      some [sha256Hex [1], sha256Hex [2]] ∧
    verify_integrity fsV2 stAfter2 smsPath =
      .ok ⟨"warning", "ALTÉRATION DÉTECTÉE ⚠️", some (sha256Hex [1]),
           some (sha256Hex [2]), some false⟩ ∧
    sha256Hex [1] ≠ sha256Hex [2] := by
  refine ⟨by decide, by decide, by decide⟩

/-- C1 (amended): `verify` selects the **first** record in ledger order
whose `filename` matches; records appended later (any `l2`) never influence
the reference, so two `record` calls for the same filename leave `verify`
comparing against the digest from the first call. -/
theorem verify_uses_first_match (fs : FS) (st : LedgerSt) (p : String)
    (l1 l2 : List EvidenceEntry) (e : EvidenceEntry)
    (hjson : st.json = .ok (l1 ++ l2))
    (hex : os_path_exists fs p = true)
    (hfind : l1.find? (fun x => x.filename == basename p) = some e) :
    verify_integrity fs st p =
      .ok (if calculate_hash fs p Alg.sha256 == e.sha256 then
            ⟨"success", "Intégrité vérifiée ✓", some e.sha256,
             some (calculate_hash fs p Alg.sha256), some true⟩
          else
            ⟨"warning", "ALTÉRATION DÉTECTÉE ⚠️", some e.sha256,
             some (calculate_hash fs p Alg.sha256), some false⟩) := by
  unfold verify_integrity
  simp only [hex, Bool.not_true, Bool.false_eq_true, if_false, hjson,
    List.find?_append, hfind, Option.or_some]
  cases hc : calculate_hash fs p Alg.sha256 == e.sha256 <;> simp [hc]

theorem verify_uses_first_match_witness :
    verify_integrity fsV2 stAfter2 smsPath =
      .ok (if calculate_hash fsV2 smsPath Alg.sha256 == (entryOf recV1).sha256 then
            ⟨"success", "Intégrité vérifiée ✓", some (entryOf recV1).sha256,
             some (calculate_hash fsV2 smsPath Alg.sha256), some true⟩
          else
            ⟨"warning", "ALTÉRATION DÉTECTÉE ⚠️", some (entryOf recV1).sha256,
             some (calculate_hash fsV2 smsPath Alg.sha256), some false⟩) :=
  verify_uses_first_match fsV2 stAfter2 smsPath
    [entryOf recV1] [entryOf recV2] (entryOf recV1)
    (by decide) (by decide) (by decide)

/-! ## Shared structural lemma: the success path of `record` -/

/-- When the file exists and both ledger writes succeed,
`create_evidence_chain` returns the full entry and appends it to both
persisted forms, starting the json list afresh when the document was absent
or unparsable. -/
theorem create_evidence_chain_ok (fs : FS) (nowIso p op : String)
    (st : LedgerSt) (fi : FileInfo) (hfs : fs p = some fi)
    (hcw : st.csv_writable = true) (hjw : st.json_writable = true) :
    create_evidence_chain fs nowIso p op st =
      (.ok (mkEvidenceEntry fs nowIso p op fi),
       { st with csv := st.csv ++ [mkEvidenceEntry fs nowIso p op fi],
                 json := .ok (st.json.entriesD ++ [mkEvidenceEntry fs nowIso p op fi]) }) := by
  cases hj : st.json <;>
    simp [create_evidence_chain, hfs, save_to_evidence_log, hcw,
      save_to_json_log, hjw, hj, JsonDoc.entriesD]

/-- The stat-failure path of `record`: the file is absent. -/
theorem create_evidence_chain_none (fs : FS) (nowIso p op : String)
    (st : LedgerSt) (hfs : fs p = none) :
    create_evidence_chain fs nowIso p op st =
      (.degraded ⟨nowIso, basename p,
        "No such file or directory: " ++ p, "FAIL"⟩, st) := by
  simp [create_evidence_chain, hfs]

/-- The csv-write-failure path of `record`: nothing is persisted. -/
theorem create_evidence_chain_nocsv (fs : FS) (nowIso p op : String)
    (st : LedgerSt) (fi : FileInfo) (hfs : fs p = some fi)
    (hcw : st.csv_writable = false) :
    create_evidence_chain fs nowIso p op st =
      (.degraded ⟨nowIso, basename p,
        "could not write evidence_log.csv", "FAIL"⟩, st) := by
  simp [create_evidence_chain, hfs, save_to_evidence_log, hcw]

/-- The json-write-failure path of `record`: the csv row is already
written, the json document is untouched. -/
theorem create_evidence_chain_nojson (fs : FS) (nowIso p op : String)
    (st : LedgerSt) (fi : FileInfo) (hfs : fs p = some fi)
    (hcw : st.csv_writable = true) (hjw : st.json_writable = false) :
    create_evidence_chain fs nowIso p op st =
      (.degraded ⟨nowIso, basename p,
        "could not write evidence_log.json", "FAIL"⟩,
       { st with csv := st.csv ++ [mkEvidenceEntry fs nowIso p op fi] }) := by
  simp [create_evidence_chain, hfs, save_to_evidence_log, hcw,
    save_to_json_log, hjw]

/-! ## C2: record-then-verify round trip -/

/-- C2 counterexample: after `sms.db` has been recorded twice with
different contents, a `record` immediately followed by `verify` with the
file unmodified does **not** return `VERIFIED`: the verifier compares
against the stale first entry and reports `TAMPERED`. -/
theorem C2_counterexample :
    verify_integrity fsV2
      (create_evidence_chain fsV2 "2024-05-01T11:00:00" smsPath
        "sms_extraction" stAfter1).2 smsPath =
      .ok ⟨"warning", "ALTÉRATION DÉTECTÉE ⚠️", some (sha256Hex [1]),
           some (sha256Hex [2]), some false⟩ := by
  decide

/-- C2 (amended): provided no record with the same base name is already in
the ledger document, `record(f, op)` followed immediately by `verify(f)`
with `f` unmodified returns `VERIFIED` (`status = "success"`,
`match = true`) with `original_hash = current_hash`, both the genuine
SHA-256 digest of the file's contents. -/
theorem record_then_verify (fs : FS) (st : LedgerSt)
    (nowIso p op : String) (fi : FileInfo)
    (hfs : fs p = some fi) (hread : fi.readable = true)
    (hcw : st.csv_writable = true) (hjw : st.json_writable = true)
    (hfresh : ∀ e ∈ st.json.entriesD, ¬ e.filename = basename p) :
    verify_integrity fs (create_evidence_chain fs nowIso p op st).2 p =
      .ok ⟨"success", "Intégrité vérifiée ✓", some (sha256Hex fi.content),
           some (sha256Hex fi.content), some true⟩ ∧
    isHexDigest64 (sha256Hex fi.content) = true := by
  have hrec := create_evidence_chain_ok fs nowIso p op st fi hfs hcw hjw
  have hch : calculate_hash fs p Alg.sha256 = sha256Hex fi.content := by
    simp [calculate_hash, hfs, hread, hashHex]
  have hnone : (st.json.entriesD).find? (fun x => x.filename == basename p) = none :=
    List.find?_eq_none.mpr fun x hx => by simp [hfresh x hx]
  constructor
  · rw [hrec]
    unfold verify_integrity
    simp only [os_path_exists, hfs, Option.isSome_some, Bool.not_true,
      Bool.false_eq_true, if_false, List.find?_append, hnone, Option.none_or]
    rw [List.find?_cons_of_pos _ (by simp [mkEvidenceEntry])]
    simp [mkEvidenceEntry, hch]
  · exact isHexDigest64_sha256Hex fi.content

theorem record_then_verify_witness :
    verify_integrity fsV1
      (create_evidence_chain fsV1 "2024-05-01T10:00:00" smsPath
        "sms_extraction" st0).2 smsPath =
      .ok ⟨"success", "Intégrité vérifiée ✓", some (sha256Hex [1]),
           some (sha256Hex [1]), some true⟩ ∧
    isHexDigest64 (sha256Hex [1]) = true :=
  record_then_verify fsV1 st0 "2024-05-01T10:00:00" smsPath "sms_extraction"
    ⟨[1], true⟩ (by decide) rfl rfl rfl (by simp [st0, JsonDoc.entriesD])

/-! ## C3: the recorder's failure policy -/

/-- C3 counterexample: two failures the claim covers behave otherwise.  A
digest failure (file present, unreadable) is **not** converted into a
degraded record: the returned (and appended) record carries
`integrity_check = "PASS"` with sentinel `"ERROR"` hashes.  A stat failure
(file absent) does return a degraded `FAIL` record, but nothing is
recorded in the ledger: the state is returned unchanged. -/
theorem C3_counterexample :
    (create_evidence_chain fsLocked "2024-05-02T09:00:00" dbPath
        "whatsapp_backup" st0).1 =
      .ok ⟨"2024-05-02T09:00:00", "msgstore.db", dbPath, 3, "3.00 B",
           "ERROR", "ERROR", "ERROR", "whatsapp_backup", "Android Collector",
           "N/A", "PASS", "whatsapp_backup via ADB backup"⟩ ∧
    create_evidence_chain fsNone "2024-05-02T09:30:00" dbPath
        "whatsapp_backup" st0 =
      (.degraded ⟨"2024-05-02T09:30:00", "msgstore.db",
        "No such file or directory: " ++ dbPath, "FAIL"⟩, st0) := by
  constructor <;> decide

/-- C3 (amended): `record` never raises (it is a total function into
outcomes).  A stat or ledger-write failure yields a returned degraded
record with `integrity_check = "FAIL"` and a non-empty `error` field, and
leaves the ledger document unchanged (the degraded record is **not**
appended).  A digest failure is swallowed inside `calculate_hash` instead,
so the returned record is then a normal `"PASS"` entry. -/
theorem record_failure_policy (fs : FS) (nowIso p op : String) (st : LedgerSt) :
    (∀ d, (create_evidence_chain fs nowIso p op st).1 = .degraded d →
      d.integrity_check = "FAIL" ∧ d.error ≠ "" ∧
      (create_evidence_chain fs nowIso p op st).2.json = st.json) ∧
    (∀ e, (create_evidence_chain fs nowIso p op st).1 = .ok e →
      e.integrity_check = "PASS") := by
  have hne : ("No such file or directory: " ++ p) ≠ "" := by
    intro h
    have h2 := congrArg String.length h
    rw [String.length_append] at h2
    have h3 : ("No such file or directory: ").length = 27 := by decide
    have h4 : ("" : String).length = 0 := rfl
    rw [h3, h4] at h2
    omega
  cases hfs : fs p with
  | none =>
    rw [create_evidence_chain_none fs nowIso p op st hfs]
    exact ⟨fun d hd => by cases hd; exact ⟨rfl, hne, rfl⟩,
           fun e he => by cases he⟩
  | some fi =>
    cases hcw : st.csv_writable with
    | false =>
      rw [create_evidence_chain_nocsv fs nowIso p op st fi hfs hcw]
      exact ⟨fun d hd => by
               cases hd
               exact ⟨rfl, (by decide : ("could not write evidence_log.csv" : String) ≠ ""), rfl⟩,
             fun e he => by cases he⟩
    | true =>
      cases hjw : st.json_writable with
      | false =>
        rw [create_evidence_chain_nojson fs nowIso p op st fi hfs hcw hjw]
        exact ⟨fun d hd => by
                 cases hd
                 exact ⟨rfl, (by decide : ("could not write evidence_log.json" : String) ≠ ""), rfl⟩,
               fun e he => by cases he⟩
      | true =>
        rw [create_evidence_chain_ok fs nowIso p op st fi hfs hcw hjw]
        exact ⟨(fun d hd => nomatch hd), fun e he => by cases he; rfl⟩

theorem record_failure_policy_witness :
    ((create_evidence_chain fsNone "2024-05-02T09:30:00" dbPath
        "whatsapp_backup" st0).1 = .degraded
          ⟨"2024-05-02T09:30:00", "msgstore.db",
           "No such file or directory: " ++ dbPath, "FAIL"⟩ →
      True) ∧
    (create_evidence_chain fsNone "2024-05-02T09:30:00" dbPath
        "whatsapp_backup" st0).2.json = st0.json :=
  ⟨fun _ => trivial,
   ((record_failure_policy fsNone "2024-05-02T09:30:00" dbPath
      "whatsapp_backup" st0).1
      ⟨"2024-05-02T09:30:00", "msgstore.db",
       "No such file or directory: " ++ dbPath, "FAIL"⟩ (by decide)).2.2⟩

/-! ## C4: appended records carry genuine digests -/

/-- C4 counterexample: the ledger after recording an existing but
unreadable file holds exactly one successfully appended record whose
`sha256` is the sentinel `"ERROR"` (and whose status is even `"PASS"`),
not a lowercase hex SHA-256 digest. -/
theorem C4_counterexample :
    (readAll stLocked).map (List.map fun e => (e.sha256, e.integrity_check)) =
      some [("ERROR", "PASS")] ∧
    isHexDigest64 "ERROR" = false := by
  constructor <;> decide

/-- C4 (amended): every record appended by a successful `record` call has
`sha256` equal to the digest engine's output for the file: the genuine
lowercase hex SHA-256 digest of the file's bytes whenever the file was
readable at digest time, and the sentinel `"ERROR"` otherwise. -/
theorem appended_sha256_spec (fs : FS) (nowIso p op : String) (st : LedgerSt)
    (e : EvidenceEntry)
    (he : (create_evidence_chain fs nowIso p op st).1 = .ok e) :
    e.sha256 = calculate_hash fs p Alg.sha256 ∧
    (create_evidence_chain fs nowIso p op st).2.json =
      .ok (st.json.entriesD ++ [e]) ∧
    (∀ fi, fs p = some fi → fi.readable = true →
      e.sha256 = sha256Hex fi.content ∧ isHexDigest64 e.sha256 = true) := by
  cases hfs : fs p with
  | none => simp [create_evidence_chain, hfs] at he
  | some fi =>
    cases hcw : st.csv_writable with
    | false => simp [create_evidence_chain, hfs, save_to_evidence_log, hcw] at he
    | true =>
      cases hjw : st.json_writable with
      | false =>
        simp [create_evidence_chain, hfs, save_to_evidence_log, hcw,
          save_to_json_log, hjw] at he
      | true =>
        have hrec := create_evidence_chain_ok fs nowIso p op st fi hfs hcw hjw
        rw [hrec] at he ⊢
        cases he
        refine ⟨rfl, rfl, fun fi' hfi' hr' => ?_⟩
        have hfi : fi = fi' := Option.some.inj hfi'
        subst hfi
        have hch : calculate_hash fs p Alg.sha256 = sha256Hex fi.content := by
          simp [calculate_hash, hfs, hr', hashHex]
        refine ⟨hch, ?_⟩
        show isHexDigest64 (calculate_hash fs p Alg.sha256) = true
        rw [hch]
        exact isHexDigest64_sha256Hex fi.content

theorem appended_sha256_spec_witness :
    (entryOf recV1).sha256 = calculate_hash fsV1 smsPath Alg.sha256 ∧
    (create_evidence_chain fsV1 "2024-05-01T10:00:00" smsPath
        "sms_extraction" st0).2.json =
      .ok (st0.json.entriesD ++ [entryOf recV1]) ∧
    (∀ fi, fsV1 smsPath = some fi → fi.readable = true →
      (entryOf recV1).sha256 = sha256Hex fi.content ∧
      isHexDigest64 (entryOf recV1).sha256 = true) :=
  appended_sha256_spec fsV1 "2024-05-01T10:00:00" smsPath "sms_extraction"
    st0 (entryOf recV1) (by decide)

/-! ## C6: the ledger is append-only and monotonic -/

/-- Folding `record` calls over any writable, non-corrupt ledger appends
exactly the call entries, in call order, to both persisted forms. -/
theorem recordMany_readAll (inputs : List RecInput) (st : LedgerSt)
    (hcw : st.csv_writable = true) (hjw : st.json_writable = true)
    (hnc : st.json ≠ .corrupt)
    (hex : ∀ i ∈ inputs, (i.fs i.path).isSome = true) :
    readAll (recordMany inputs st) =
      some (st.json.entriesD ++ inputs.map entryOf) ∧
    (recordMany inputs st).csv = st.csv ++ inputs.map entryOf := by
  induction inputs generalizing st with
  | nil =>
    cases hj : st.json with
    | missing => simp [recordMany, readAll, hj, JsonDoc.entriesD]
    | corrupt => exact absurd hj hnc
    | ok l => simp [recordMany, readAll, hj, JsonDoc.entriesD]
  | cons i rest ih =>
    obtain ⟨fi, hfi⟩ := Option.isSome_iff_exists.mp (hex i (List.mem_cons_self i rest))
    have hrec := create_evidence_chain_ok i.fs i.now i.path i.op st fi hfi hcw hjw
    have hent : mkEvidenceEntry i.fs i.now i.path i.op fi = entryOf i := by
      simp [entryOf, hfi]
    have hstep : recordMany (i :: rest) st =
        recordMany rest { st with csv := st.csv ++ [entryOf i],
                                  json := .ok (st.json.entriesD ++ [entryOf i]) } := by
      show recordMany rest (create_evidence_chain i.fs i.now i.path i.op st).2 = _
      rw [hrec, hent]
    rw [hstep]
    have ih' := ih { st with csv := st.csv ++ [entryOf i],
                             json := .ok (st.json.entriesD ++ [entryOf i]) }
      hcw hjw (by simp) (fun j hj => hex j (List.mem_cons_of_mem i hj))
    constructor
    · rw [ih'.1]
      simp [JsonDoc.entriesD, List.append_assoc]
    · rw [ih'.2]
      simp [List.append_assoc]

/-- C6: starting from an empty ledger, after `N` successful `record` calls
`readAll` returns exactly the `N` entries in call order (in both the json
document and the csv row log), and a single ledger append always extends
the existing sequence verbatim — it never edits or removes a prior
record. -/
theorem ledger_append_monotonic (inputs : List RecInput)
    (hex : ∀ i ∈ inputs, (i.fs i.path).isSome = true) :
    (readAll (recordMany inputs st0) = some (inputs.map entryOf) ∧
     (recordMany inputs st0).csv = inputs.map entryOf ∧
     (inputs.map entryOf).length = inputs.length) ∧
    (∀ (st : LedgerSt) (l : List EvidenceEntry) (e : EvidenceEntry),
      st.json = .ok l → st.csv_writable = true → st.json_writable = true →
      (save_to_evidence_log e st).2.json = .ok (l ++ [e]) ∧
      (save_to_evidence_log e st).2.csv = st.csv ++ [e]) := by
  constructor
  · have h := recordMany_readAll inputs st0 rfl rfl (by decide) hex
    refine ⟨?_, ?_, List.length_map inputs entryOf⟩
    · have : st0.json.entriesD = [] := rfl
      rw [h.1, this, List.nil_append]
    · have : st0.csv = [] := rfl
      rw [h.2, this, List.nil_append]
  · intro st l e hj hcw hjw
    constructor <;> simp [save_to_evidence_log, hcw, save_to_json_log, hjw, hj]

theorem ledger_append_monotonic_witness :
    readAll (recordMany [recV1, recV2] st0) =
      some [entryOf recV1, entryOf recV2] ∧
    (recordMany [recV1, recV2] st0).csv = [entryOf recV1, entryOf recV2] := by
  have h := (ledger_append_monotonic [recV1, recV2] (by decide)).1
  exact ⟨h.1, h.2.1⟩

/-! ## C7: the verifier's precondition handling -/

/-- C7 counterexample: when the ledger document exists but is unreadable
(unparsable), `verify` does not return an explicit error result: the
`json.load` exception propagates out of it (a crash at the component
boundary), refuting the "never crashes, fails with NotFound" claim for
that case. -/
theorem C7_counterexample :
    verify_integrity fsV1 stCorrupt smsPath =
      .error "json.decoder.JSONDecodeError" := by
  decide

/-- C7 (amended): `verify` returns an explicit error result, without
raising, when the target file does not exist, when the ledger document does
not exist, and when no ledger record matches the base name; but when the
ledger document exists and is unreadable, the parse exception propagates
(no explicit error result). -/
theorem verify_error_paths (fs : FS) (st : LedgerSt) (p : String) :
    (os_path_exists fs p = false →
      verify_integrity fs st p =
        .ok ⟨"error", "Fichier introuvable", none, none, none⟩) ∧
    (os_path_exists fs p = true → st.json = .missing →
      verify_integrity fs st p =
        .ok ⟨"error", "Aucune preuve enregistrée", none, none, none⟩) ∧
    (∀ l, os_path_exists fs p = true → st.json = .ok l →
      l.find? (fun x => x.filename == basename p) = none →
      verify_integrity fs st p =
        .ok ⟨"error", "Preuve originale introuvable", none, none, none⟩) ∧
    (os_path_exists fs p = true → st.json = .corrupt →
      verify_integrity fs st p = .error "json.decoder.JSONDecodeError") := by
  refine ⟨fun h => ?_, fun h hj => ?_, fun l h hj hf => ?_, fun h hj => ?_⟩
  · simp [verify_integrity, h]
  · simp [verify_integrity, h, hj]
  · simp [verify_integrity, h, hj, hf]
  · simp [verify_integrity, h, hj]

theorem verify_error_paths_witness :
    verify_integrity fsNone st0 smsPath =
      .ok ⟨"error", "Fichier introuvable", none, none, none⟩ ∧
    verify_integrity fsV1 st0 smsPath =
      .ok ⟨"error", "Aucune preuve enregistrée", none, none, none⟩ ∧
    verify_integrity fsV1 stEmptyChain smsPath =
      .ok ⟨"error", "Preuve originale introuvable", none, none, none⟩ ∧
    verify_integrity fsV1 stCorrupt smsPath =
      .error "json.decoder.JSONDecodeError" :=
  ⟨(verify_error_paths fsNone st0 smsPath).1 (by decide),
   (verify_error_paths fsV1 st0 smsPath).2.1 (by decide) rfl,
   (verify_error_paths fsV1 stEmptyChain smsPath).2.2.1 [] (by decide) rfl rfl,
   (verify_error_paths fsV1 stCorrupt smsPath).2.2.2 (by decide) rfl⟩

/-! ## C8: which outcomes carry the two digests -/

/-- C8 counterexample: the `NoReferenceRecord` outcome — a verification
failure — carries no hash fields at all (`original_hash`, `current_hash`
and `match` keys are absent), refuting "every verify outcome includes both
digests". -/
theorem C8_counterexample :
    verify_integrity fsV2 stEmptyChain smsPath =
      .ok ⟨"error", "Preuve originale introuvable", none, none, none⟩ := by
  decide

/-- C8 (amended): the `VERIFIED` and `TAMPERED` outcomes always include
both digests (and the match flag); the error outcomes are bare
status-plus-message results with none of the three. -/
theorem verify_result_hash_fields (fs : FS) (st : LedgerSt) (p : String)
    (r : VerifyResult) (h : verify_integrity fs st p = .ok r) :
    (r.status = "success" ∨ r.status = "warning" →
      r.original_hash.isSome = true ∧ r.current_hash.isSome = true ∧
      r.«match».isSome = true) ∧
    (r.status = "error" →
      r.original_hash = none ∧ r.current_hash = none ∧ r.«match» = none) := by
  simp only [verify_integrity] at h
  split at h
  · cases h
    exact ⟨fun hc => absurd hc (by decide), fun _ => ⟨rfl, rfl, rfl⟩⟩
  · split at h
    · cases h
      exact ⟨fun hc => absurd hc (by decide), fun _ => ⟨rfl, rfl, rfl⟩⟩
    · exact nomatch h
    · split at h
      · cases h
        exact ⟨fun hc => absurd hc (by decide), fun _ => ⟨rfl, rfl, rfl⟩⟩
      · split at h
        · cases h
          exact ⟨fun _ => ⟨rfl, rfl, rfl⟩,
                 fun hc => absurd hc (show ¬("success" : String) = "error" by decide)⟩
        · cases h
          exact ⟨fun _ => ⟨rfl, rfl, rfl⟩,
                 fun hc => absurd hc (show ¬("warning" : String) = "error" by decide)⟩

theorem verify_result_hash_fields_witness :
    ((("success" : String) = "success" ∨ ("success" : String) = "warning") →
      (some (sha256Hex [1])).isSome = true ∧
      (some (sha256Hex [1])).isSome = true ∧ (some true).isSome = true) ∧
    (("success" : String) = "error" →
      some (sha256Hex [1]) = none ∧ some (sha256Hex [1]) = none ∧
      (some true : Option Bool) = none) :=
  verify_result_hash_fields fsV1 stAfter1 smsPath
    ⟨"success", "Intégrité vérifiée ✓", some (sha256Hex [1]),
     some (sha256Hex [1]), some true⟩ (by decide)

/-! ## C9: a fabricated VERIFIED result -/

/-- C9 (code bug demonstration): record an existing but unreadable file —
its ledger entry gets the sentinel `sha256 = "ERROR"` — then verify the
same still-unreadable path.  Both the recorded and the recomputed digest
computations failed, yet `verify` returns `status = "success"` with
`match = true`: a fabricated positive result, where the claim (and spec
§7) requires failures during verification never to surface as
`match = true`. -/
theorem C9_false_verified_bug :
    calculate_hash fsLocked dbPath Alg.sha256 = "ERROR" ∧
    verify_integrity fsLocked stLocked dbPath =
      .ok ⟨"success", "Intégrité vérifiée ✓", some "ERROR", some "ERROR",
           some true⟩ := by
  constructor <;> decide

/-! ## C10: report generation -/

/-- C10: `generate` is deterministic in structure — its non-timestamp,
non-id fields equal the supplied inputs with the documented defaults
substituted when omitted — and the report is persisted as a structured
document and a rendered document at
`forensic_reports/<report_id>.json` / `.html` under the collection root. -/
theorem generate_report_spec (extraction_data : ExtractionData)
    (scenario_data : Option ScenarioData) (ts : Timestamp)
    (store : ReportStore) (hw : store.writable = true) :
    (∃ r s', generate_forensic_report extraction_data scenario_data ts store =
      .ok (r, s')) ∧
    (∀ report store',
      generate_forensic_report extraction_data scenario_data ts store =
        .ok (report, store') →
      report.report_id = "FR-" ++ ts.compact ∧
      report.generation_date = ts.iso ∧
      report.case_details =
        ⟨(match scenario_data with
          | some sd => sd.case_name.getD "Investigation Android"
          | none => "Investigation Standard"),
         (match scenario_data with
          | some sd => sd.incident_date.getD "N/A"
          | none => "N/A"),
         (match scenario_data with
          | some sd => sd.location.getD "N/A"
          | none => "N/A"),
         (match scenario_data with
          | some sd => sd.description.getD "Analyse forensique d'un appareil Android"
          | none => "Analyse forensique standard")⟩ ∧
      report.case_reference =
        (match scenario_data with
         | some sd => sd.case_number.getD "CS-2024-001"
         | none => "CS-NON-RENSEIGNE") ∧
      report.evidence_chain =
        ⟨extraction_data.total_files.getD 0,
         extraction_data.hashes_calculated.getD true,
         extraction_data.integrity_ok.getD true⟩ ∧
      report.findings_summary = generate_findings_summary extraction_data ∧
      report.conclusions.main_findings =
        extraction_data.main_findings.getD "Aucune donnée compromettante détectée" ∧
      store'.jsonDocs (reports_dir ++ "/" ++ ("FR-" ++ ts.compact) ++ ".json") =
        some report ∧
      (store'.htmlDocs (reports_dir ++ "/" ++ ("FR-" ++ ts.compact) ++ ".html")).isSome =
        true) := by
  obtain ⟨jd, hd, w⟩ := store
  cases hw
  constructor
  · exact ⟨_, _, rfl⟩
  · intro report store' h
    cases h
    refine ⟨rfl, rfl, rfl, rfl, rfl, rfl, rfl, by simp, by simp⟩

theorem generate_report_spec_witness :
    ∃ r s',
      generate_forensic_report edEmpty sdAffaireX tsX emptyReportStore =
        .ok (r, s') ∧
      r.case_details.case_name = "Affaire X" ∧
      s'.jsonDocs (reports_dir ++ "/" ++ ("FR-" ++ tsX.compact) ++ ".json") =
        some r ∧
      (s'.htmlDocs (reports_dir ++ "/" ++ ("FR-" ++ tsX.compact) ++ ".html")).isSome =
        true := by
  obtain ⟨⟨r, s', hgen⟩, hall⟩ :=
    generate_report_spec edEmpty sdAffaireX tsX emptyReportStore rfl
  obtain ⟨h1, h2, h3, h4, h5, h6, h7, h8, h9⟩ := hall r s' hgen
  refine ⟨r, s', hgen, ?_, h8, h9⟩
  rw [h3]
  simp [sdAffaireX]

end Collector
